import Mathlib

/-!
Verification development for the 67P-Swarm trajectory core.

The development gives a shallow embedding of the trajectory-propagation code
in `Trajectory.py` and `udp_initial_condition.py` (event detection inside a
risk zone, collision classification of recorded event points, construction
validation, fitness evaluation) and of the point-rotation cross-validation
in `toss/tests/point_rotation_test.py`, and proves the stated properties
about these embedded operations.

External collaborators (the mesh inside/outside classifier of
`mesh_utility`, and the desolver ODE integration backend) are modelled as
parameters or oracles; the embedded functions mirror the repository code
that orchestrates them.
-/

namespace Swarm

/-- Three real components, used for positions and for rows of point arrays. -/
@[ext]
structure V3 where
  x : ℝ
  y : ℝ
  z : ℝ

/-- Six-component integration state: position components followed by
velocity components, as in the solver state vector. -/
structure State6 where
  p1 : ℝ
  p2 : ℝ
  p3 : ℝ
  w1 : ℝ
  w2 : ℝ
  w3 : ℝ

/-- Euclidean norm of the position block `state[0:3]`, as `D.norm(position)`. -/
noncomputable def positionNorm (s : State6) : ℝ :=
  Real.sqrt (s.p1 ^ 2 + s.p2 ^ 2 + s.p3 ^ 2)

/-- Embedding of `check_inside_risk_zone` (`Trajectory.py` lines 141-156,
identical to `Check_inside_risk_zone` in `udp_initial_condition.py` lines
182-197): `distance = risk_zone_radius - D.norm(position)`; return `0` when
`distance >= 0`, otherwise `1`. -/
noncomputable def check_inside_risk_zone (t : ℝ) (state : State6) (risk_zone_radius : ℝ) : ℝ :=
  let distance := risk_zone_radius - positionNorm state
  if distance ≥ 0 then 0 else 1

/-- Embedding of `point_is_outside_mesh`: applies the external classifier
`mesh_utility.is_outside` (passed here as the parameter `is_outside`) to each
point of the array, producing one boolean per point. -/
def point_is_outside_mesh (is_outside : V3 → Bool) (pts : List V3) : List Bool :=
  pts.map is_outside

/-- Embedding of the collision-penalty stage of `Trajectory.integrate`
(lines 98-108) and `udp_initial_condition.compute_trajectory` (lines
139-149).  The first component is `collision_penalty`; the second records
the argument lists the code passes to `point_is_outside_mesh`: the source
calls the classifier unconditionally, exactly once per run, with the
(possibly zero-length) array of recorded event points. -/
def collisionPenaltyStage (is_outside : V3 → Bool) (points_inside_risk_zone : List V3) :
    ℝ × List (List V3) :=
  let collision_avoided := point_is_outside_mesh is_outside points_inside_risk_zone
  (if collision_avoided.all id then 0 else 1e30, [points_inside_risk_zone])

/-- The `collision_penalty` value returned by the run. -/
def collisionPenalty (is_outside : V3 → Bool) (pts : List V3) : ℝ :=
  (collisionPenaltyStage is_outside pts).1

/-- Embedding of the validation block of `Trajectory.__init__`
(`Trajectory.py` lines 44-48): the four assert statements in source order;
an error value means an `AssertionError` aborts construction and no engine
object is produced. -/
noncomputable def Trajectory_init_validate (body_density final_time start_time time_step
    radius_bounding_sphere largest_body_protuberant : ℝ) : Except Unit Unit :=
  if body_density > 0 then
    if final_time > start_time then
      if time_step ≤ final_time - start_time then
        if radius_bounding_sphere > largest_body_protuberant then Except.ok ()
        else Except.error ()
      else Except.error ()
    else Except.error ()
  else Except.error ()

/-- Truthiness-based `ndarray.all()`: every entry nonzero (Python float
truthiness). -/
def npAll (xs : List ℚ) : Bool := xs.all (fun v => decide (v ≠ 0))

/-- Comparison of two Python booleans with `<`: `bool` is an `int` subtype,
so `False < True` is the only pair comparing strictly less. -/
def pyBoolLt (b1 b2 : Bool) : Bool := !b1 && b2

/-- Embedding of the bounds assertion of `udp_initial_condition.__init__`
line 56: `assert lower_bounds.all() < upper_bounds.all()` - it reduces the
two arrays with `.all()` first and compares the two resulting booleans. -/
def udp_bounds_assert (lower_bounds upper_bounds : List ℚ) : Bool :=
  pyBoolLt (npAll lower_bounds) (npAll upper_bounds)

/-- The property the spec asserts the bounds check enforces: every element
of `lower_bounds` strictly below the corresponding element of
`upper_bounds`. -/
def elementwiseLt (lower_bounds upper_bounds : List ℚ) : Bool :=
  (List.zip lower_bounds upper_bounds).all (fun p => decide (p.1 < p.2))

/-- One dense-output sample of the integration: time and state, one column
of `trajectory_info`. -/
structure Sample where
  t : ℝ
  y : State6

/-- Embedding of
`trajectory_info[0,:]**2 + trajectory_info[1,:]**2 + trajectory_info[2,:]**2`
(`Trajectory.py` line 95, `udp_initial_condition.py` line 136): the
elementwise sum of the squares of the first three rows of the sample
matrix, i.e. of the per-sample position components. -/
def squared_altitudes (samples : List Sample) : List ℝ :=
  List.zipWith (· + ·)
    (List.zipWith (· + ·)
      ((samples.map fun s => s.y.p1).map fun a => a ^ 2)
      ((samples.map fun s => s.y.p2).map fun a => a ^ 2))
    ((samples.map fun s => s.y.p3).map fun a => a ^ 2)

/-- Mean of a list of reals, as `np.mean`: sum divided by length. -/
noncomputable def npMean (xs : List ℝ) : ℝ := xs.sum / (xs.length : ℝ)

/-- Hidden mutable attributes involved in a fitness evaluation: the debug
counter `self.k` incremented on every `fitness` call, and the shared
`is_terminal` attribute stored on the module-level event-callback object. -/
structure HiddenState where
  k : ℕ
  is_terminal : Bool

/-- Oracle for the external desolver dense solution of the configured ODE
system: for an initial state it yields the accepted samples over
`[start_time, final_time]` and the detected risk-zone crossing samples.
The oracle stands for `de.OdeSystem(...)` together with the equations of
motion, tolerances and integration scheme fixed at construction. -/
def OdeOracle : Type := State6 → List Sample × List Sample

/-- Modelled from the desolver event contract: with a terminal event the
integration stops at the first detected crossing and only that crossing is
recorded; with a non-terminal event the integration runs to final time,
keeping every accepted sample and recording every crossing. -/
noncomputable def deIntegrateEvents (samples crossings : List Sample) (is_terminal : Bool) :
    List Sample × List Sample :=
  if is_terminal then
    match crossings.head? with
    | none => (samples, [])
    | some c => (samples.filter fun s => decide (s.t ≤ c.t), [c])
  else (samples, crossings)

/-- Embedding of `udp_initial_condition.compute_trajectory` (lines 118-152):
sets `Check_inside_risk_zone.is_terminal = False`, integrates with the
event callback, computes `squared_altitudes`, collects the event positions
and computes the collision penalty.  The hidden mutable attributes are
passed and returned explicitly. -/
noncomputable def compute_trajectory (oracle : OdeOracle) (is_outside : V3 → Bool)
    (σ : HiddenState) (x : State6) :
    (List Sample × List ℝ × ℝ) × HiddenState :=
  let σ1 : HiddenState := { σ with is_terminal := false }
  let r := deIntegrateEvents (oracle x).1 (oracle x).2 σ1.is_terminal
  let trajectory_info := r.1
  let sq := squared_altitudes trajectory_info
  let pts := r.2.map fun s => V3.mk s.y.p1 s.y.p2 s.y.p3
  ((trajectory_info, sq, collisionPenalty is_outside pts), σ1)

/-- Embedding of `udp_initial_condition.fitness` (lines 76-94): integrates
the trajectory, computes
`np.mean(np.abs(squared_altitudes - target_altitude)) + collision_penalty`,
increments the debug counter `self.k`, and returns the single-element list
`[fitness_value]`. -/
noncomputable def fitness (oracle : OdeOracle) (is_outside : V3 → Bool) (target_altitude : ℝ)
    (σ : HiddenState) (x : State6) : List ℝ × HiddenState :=
  let r := compute_trajectory oracle is_outside σ x
  let fitness_value := npMean ((r.1.2.1).map fun a => |a - target_altitude|) + r.1.2.2
  ([fitness_value], { r.2 with k := r.2.k + 1 })

/-- Numerical failure raised by the external solver while integrating. -/
inductive NumericalError where
  | nonFiniteDerivative
  | nonConvergence
deriving DecidableEq

/-- Embedding of `Trajectory.integrate` (`Trajectory.py` lines 77-111) with
the solver call made explicit as a fallible step: the source wraps
`trajectory.integrate(...)` in no try/except, so an error raised there
leaves the function before any of the post-processing runs. -/
noncomputable def Trajectory_integrate (is_outside : V3 → Bool)
    (solve : Except NumericalError (List Sample × List Sample)) :
    Except NumericalError (List Sample × List ℝ × ℝ) :=
  match solve with
  | Except.error e => Except.error e
  | Except.ok (samples, events) =>
      Except.ok (samples, squared_altitudes samples,
        collisionPenalty is_outside (events.map fun s => V3.mk s.y.p1 s.y.p2 s.y.p3))

/-- Quaternion with four real components, Hamilton convention:
`a + b i + c j + d k`. -/
structure Quat where
  a : ℝ
  b : ℝ
  c : ℝ
  d : ℝ

/-- Hamilton product of two quaternions, as pyquaternion multiplication. -/
def qmul (p q : Quat) : Quat where
  a := p.a * q.a - p.b * q.b - p.c * q.c - p.d * q.d
  b := p.a * q.b + p.b * q.a + p.c * q.d - p.d * q.c
  c := p.a * q.c - p.b * q.d + p.c * q.a + p.d * q.b
  d := p.a * q.d + p.b * q.c - p.c * q.b + p.d * q.a

/-- Quaternion conjugate. -/
def qconj (q : Quat) : Quat := ⟨q.a, -q.b, -q.c, -q.d⟩

/-- Squared quaternion norm. -/
def qnormSq (q : Quat) : ℝ := q.a ^ 2 + q.b ^ 2 + q.c ^ 2 + q.d ^ 2

/-- pyquaternion `Quaternion(axis, angle)` for a unit axis:
`(cos(angle/2), axis * sin(angle/2))`. -/
noncomputable def quatAxisAngle (ax : V3) (θ : ℝ) : Quat :=
  ⟨Real.cos (θ / 2), ax.x * Real.sin (θ / 2), ax.y * Real.sin (θ / 2), ax.z * Real.sin (θ / 2)⟩

/-- pyquaternion `q.rotate(v)` for a unit quaternion: the vector part of
the conjugation `q * (0, v) * conj q`. -/
def qrotate (q : Quat) (v : V3) : V3 :=
  let r := qmul (qmul q ⟨0, v.x, v.y, v.z⟩) (qconj q)
  ⟨r.b, r.c, r.d⟩

/-- Degrees to radians, as `math.radians`. -/
noncomputable def radians (deg : ℝ) : ℝ := deg * Real.pi / 180

/-- Declination of the spin axis in the test scenario (degrees). -/
def declination : ℝ := 64

/-- Right ascension of the spin axis in the test scenario (degrees). -/
def right_ascension : ℝ := 69

/-- Spin period of the body in the test scenario (seconds). -/
noncomputable def spin_period : ℝ := 12.06 * 3600

/-- Rotation of the spin axis according to declination
(`point_rotation_test.py` line 49). -/
noncomputable def q_dec : Quat := quatAxisAngle ⟨1, 0, 0⟩ (radians declination)

/-- Rotation of the spin axis according to right ascension
(`point_rotation_test.py` line 50). -/
noncomputable def q_ra : Quat := quatAxisAngle ⟨0, 0, 1⟩ (radians right_ascension)

/-- Composite rotation `q_dec * q_ra` (`point_rotation_test.py` line 51). -/
noncomputable def q_axis : Quat := qmul q_dec q_ra

/-- The spin axis: the body's nominal z-axis unit vector transformed by the
composite rotation (`point_rotation_test.py` line 52, matching the
construction in `EquationsOfMotion`). -/
noncomputable def spin_axis : V3 := qrotate q_axis ⟨0, 0, 1⟩

/-- Spin angular velocity `2 * pi / spin_period`
(`point_rotation_test.py` line 48). -/
noncomputable def spin_velocity : ℝ := 2 * Real.pi / spin_period

/-- Modelled from the spec: `EquationsOfMotion.rotate_point` (the
`toss/EquationsOfMotion.py` module is not under `src/`; only its test is).
Per the spec, `rotate_point(t, x)` rotates `x` about the fixed spin axis by
the angle derived from the spin rate and elapsed time, with the source's
negated-angle convention `2*pi - spin_velocity*t` (the angle the test's
analytical side uses), applying the quaternion rotation `q v q*`. -/
noncomputable def rotate_point (t : ℝ) (v : V3) : V3 :=
  qrotate (quatAxisAngle spin_axis (2 * Real.pi - spin_velocity * t)) v

/-- Embedding of the closed-form Euler-Rodrigues matrix rotation of
`point_rotation_test.py` lines 56-67: normalize the axis by
`sqrt(np.dot(axis, axis))`, set `A = cos(theta/2)`,
`(B, C, D) = -axis * sin(theta/2)`, build the rotation matrix and apply it
to `v`. -/
noncomputable def erMatrixRotate (ax : V3) (θ : ℝ) (v : V3) : V3 :=
  let nrm := Real.sqrt (ax.x * ax.x + ax.y * ax.y + ax.z * ax.z)
  let A := Real.cos (θ / 2)
  let s := Real.sin (θ / 2)
  let B := -(ax.x / nrm) * s
  let C := -(ax.y / nrm) * s
  let D := -(ax.z / nrm) * s
  ⟨(A * A + B * B - C * C - D * D) * v.x + 2 * (B * C + A * D) * v.y +
      2 * (B * D - A * C) * v.z,
    2 * (B * C - A * D) * v.x + (A * A + C * C - B * B - D * D) * v.y +
      2 * (C * D + A * B) * v.z,
    2 * (B * D + A * C) * v.x + 2 * (C * D - A * B) * v.y +
      (A * A + D * D - B * B - C * C) * v.z⟩

/-- The analytical rotation of the test: the Euler-Rodrigues matrix for the
spin axis and the angle `2*pi - spin_velocity*t`, applied to the point. -/
noncomputable def analytical_rotation (t : ℝ) (v : V3) : V3 :=
  erMatrixRotate spin_axis (2 * Real.pi - spin_velocity * t) v

/-- Helper: the row-wise squared-altitude computation equals the per-sample
sum of squared position components. -/
theorem squared_altitudes_eq_map (samples : List Sample) :
    squared_altitudes samples =
      samples.map fun s => s.y.p1 ^ 2 + s.y.p2 ^ 2 + s.y.p3 ^ 2 := by
  induction samples with
  | nil => rfl
  | cons a l ih =>
      simp only [squared_altitudes, List.map_cons, List.zipWith_cons_cons] at ih ⊢
      rw [ih]

/-- C1: for every time `t`, state and `risk_zone_radius`, the risk-zone
event detector returns `0` exactly when `risk_zone_radius` minus the
Euclidean norm of the position components is nonnegative (a position on the
boundary counts as outside), and returns `1` exactly when that distance is
strictly negative. -/
theorem c1_check_inside_risk_zone (t : ℝ) (state : State6) (r : ℝ) :
    (check_inside_risk_zone t state r = 0 ↔ 0 ≤ r - positionNorm state) ∧
    (check_inside_risk_zone t state r = 1 ↔ r - positionNorm state < 0) := by
  simp only [check_inside_risk_zone]
  split_ifs with h
  · simp only [ge_iff_le] at h
    constructor
    · exact ⟨fun _ => h, fun _ => rfl⟩
    · constructor
      · intro h01
        exact absurd h01 (by norm_num)
      · intro hlt
        exact absurd h (not_le.mpr hlt)
  · simp only [ge_iff_le, not_le] at h
    constructor
    · constructor
      · intro h10
        exact absurd h10 (by norm_num)
      · intro hle
        exact absurd h (not_lt.mpr hle)
    · exact ⟨fun _ => h, fun _ => rfl⟩

/-- C2: the run's `collision_penalty` is exactly `0` when every recorded
event point is classified outside the mesh (vacuously so for zero recorded
events), exactly `1e30` when at least one recorded point is classified
inside, and no other value occurs. -/
theorem c2_collision_penalty_values (is_outside : V3 → Bool) (pts : List V3) :
    (collisionPenalty is_outside pts = 0 ↔ ∀ p ∈ pts, is_outside p = true) ∧
    (collisionPenalty is_outside pts = 1e30 ↔ ∃ p ∈ pts, is_outside p = false) ∧
    (collisionPenalty is_outside pts = 0 ∨ collisionPenalty is_outside pts = 1e30) := by
  unfold collisionPenalty collisionPenaltyStage point_is_outside_mesh
  simp only []
  have hall : ((pts.map is_outside).all id = true) ↔ ∀ p ∈ pts, is_outside p = true := by
    simp [List.all_eq_true]
  have hne : (1e30 : ℝ) ≠ 0 := by norm_num
  split_ifs with h
  · refine ⟨⟨fun _ => hall.mp h, fun _ => rfl⟩, ?_, Or.inl rfl⟩
    constructor
    · intro h0
      exact absurd h0.symm hne
    · rintro ⟨p, hp, hf⟩
      have := hall.mp h p hp
      rw [this] at hf
      cases hf
  · have hex : ∃ p ∈ pts, is_outside p = false := by
      by_contra hcon
      push_neg at hcon
      exact h (hall.mpr (fun p hp => by
        have := hcon p hp
        revert this
        cases is_outside p <;> simp))
    refine ⟨?_, ⟨fun _ => hex, fun _ => rfl⟩, Or.inr rfl⟩
    constructor
    · intro h0
      exact absurd h0 hne
    · intro hforall
      exact absurd (hall.mpr hforall) h

/-- C3 counterexample: with zero recorded risk-zone events the source still
invokes the classifier, passing it the zero-length point array (the calls
log is nonempty); the verdict is still penalty `0`, but it is produced by
the classifier call on the empty array, not by a short-circuit. -/
theorem c3_counterexample :
    (collisionPenaltyStage (fun _ => true) []).2 = [[]] ∧
    (collisionPenaltyStage (fun _ => true) []).1 = 0 := by
  exact ⟨rfl, rfl⟩

/-- C3 amended: for every classifier, a run with zero recorded risk-zone
events yields collision penalty `0`, and the classifier is invoked exactly
once, with the zero-length point array; there is no empty-set
short-circuit in the source. -/
theorem c3_amended_empty_events (is_outside : V3 → Bool) :
    collisionPenaltyStage is_outside [] = (0, [[]]) := rfl

/-- C4: construction of the trajectory engine fails (assertion error, no
usable object) exactly when some configuration precondition is violated -
`body_density <= 0`, or `final_time <= start_time`, or
`time_step > final_time - start_time`, or `radius_bounding_sphere` not
exceeding the mesh's largest protuberance - and succeeds exactly when all
four preconditions hold. -/
theorem c4_init_preconditions (ρ ft st dt r prot : ℝ) :
    (Trajectory_init_validate ρ ft st dt r prot = Except.ok () ↔
      (0 < ρ ∧ st < ft ∧ dt ≤ ft - st ∧ prot < r)) ∧
    (Trajectory_init_validate ρ ft st dt r prot = Except.error () ↔
      ¬(0 < ρ ∧ st < ft ∧ dt ≤ ft - st ∧ prot < r)) := by
  unfold Trajectory_init_validate
  split_ifs with h1 h2 h3 h4 <;> simp_all

/-- C5: the bounds assertion of the optimizer-facing constructor, evaluated
on concrete inputs.  The valid bounds `lower = [1, 1] < upper = [2, 2]`
(elementwise strictly less) make the assertion fail, and the invalid bounds
`lower = [0, 5]`, `upper = [1, 2]` (second element violates `lb < ub`) make
it pass: the check compares `lower.all()` with `upper.all()` as two
booleans and does not enforce elementwise ordering. -/
theorem c5_bounds_assert_bug :
    elementwiseLt [1, 1] [2, 2] = true ∧ udp_bounds_assert [1, 1] [2, 2] = false ∧
    elementwiseLt [0, 5] [1, 2] = false ∧ udp_bounds_assert [0, 5] [1, 2] = true := by
  decide

/-- C6: the value returned by `fitness` (and the trajectory, squared
altitudes and collision penalty returned by `compute_trajectory`) is
independent of the hidden mutable state - the debug counter `self.k` and
the shared `is_terminal` attribute - so two runs on the same object with
identical initial state, configuration and scheme return identical results;
in particular a second `fitness` call right after a first one returns the
same value. -/
theorem c6_fitness_deterministic (oracle : OdeOracle) (is_outside : V3 → Bool)
    (target_altitude : ℝ) (σ1 σ2 : HiddenState) (x : State6) :
    (fitness oracle is_outside target_altitude σ1 x).1 =
      (fitness oracle is_outside target_altitude σ2 x).1 ∧
    (compute_trajectory oracle is_outside σ1 x).1 =
      (compute_trajectory oracle is_outside σ2 x).1 ∧
    (fitness oracle is_outside target_altitude
        ((fitness oracle is_outside target_altitude σ1 x).2) x).1 =
      (fitness oracle is_outside target_altitude σ1 x).1 := by
  exact ⟨rfl, rfl, rfl⟩

/-- C7: for every input `x`, `fitness` returns a single-element list whose
only entry is the mean over all trajectory samples of the absolute
difference between that sample's squared altitude and `target_altitude`,
plus the run's collision penalty, where the squared altitude of a sample is
the sum of the squares of its three position components. -/
theorem c7_fitness_value (oracle : OdeOracle) (is_outside : V3 → Bool)
    (target_altitude : ℝ) (σ : HiddenState) (x : State6) :
    (fitness oracle is_outside target_altitude σ x).1 =
      [ npMean (((deIntegrateEvents (oracle x).1 (oracle x).2 false).1).map
          fun s => |s.y.p1 ^ 2 + s.y.p2 ^ 2 + s.y.p3 ^ 2 - target_altitude|) +
        collisionPenalty is_outside
          (((deIntegrateEvents (oracle x).1 (oracle x).2 false).2).map
            fun s => V3.mk s.y.p1 s.y.p2 s.y.p3) ] := by
  simp only [fitness, compute_trajectory, squared_altitudes_eq_map, List.map_map]
  rfl

/-- C8: risk-zone crossings never terminate an integration run: the event
flag is set non-terminal before the run, so for every oracle solution the
integrator keeps every accepted sample up to final time and records every
crossing (zero, one or many), and the returned trajectory is the full
untruncated sample list. -/
theorem c8_nonterminal_events (samples crossings : List Sample) (oracle : OdeOracle)
    (is_outside : V3 → Bool) (σ : HiddenState) (x : State6) :
    deIntegrateEvents samples crossings false = (samples, crossings) ∧
    (compute_trajectory oracle is_outside σ x).1.1 = (oracle x).1 ∧
    (compute_trajectory oracle is_outside σ x).2.is_terminal = false := by
  refine ⟨?_, rfl, rfl⟩
  simp [deIntegrateEvents]

/-- C10 counterexample: a numerical failure raised by the solver is not
converted into a penalty: at the concrete failing run it propagates
unchanged out of `integrate` (no `ok` result carrying a worst-case fitness
penalty is produced). -/
theorem c10_counterexample :
    Trajectory_integrate (fun _ => true)
        (Except.error NumericalError.nonFiniteDerivative) =
      Except.error NumericalError.nonFiniteDerivative ∧
    (Trajectory_integrate (fun _ => true)
        (Except.error NumericalError.nonFiniteDerivative)).isOk = false := by
  exact ⟨rfl, rfl⟩

/-- C10 amended: a numerical failure during integration is not caught
inside the trajectory computation: for every classifier and every solver
error, `integrate` propagates the failure unchanged to the caller, and no
conversion into a worst-case fitness penalty exists in the source. -/
theorem c10_amended_error_propagates (is_outside : V3 → Bool) (e : NumericalError) :
    Trajectory_integrate is_outside (Except.error e) = Except.error e := rfl

/-- Helper: the quaternion norm is multiplicative (Euler four-square
identity). -/
theorem qnormSq_qmul (p q : Quat) : qnormSq (qmul p q) = qnormSq p * qnormSq q := by
  simp only [qmul, qnormSq]
  ring

/-- Helper: rotating a vector scales its squared norm by the squared
quaternion norm squared. -/
theorem normSq_qrotate (q : Quat) (v : V3) :
    (qrotate q v).x ^ 2 + (qrotate q v).y ^ 2 + (qrotate q v).z ^ 2 =
      qnormSq q ^ 2 * (v.x ^ 2 + v.y ^ 2 + v.z ^ 2) := by
  simp only [qrotate, qmul, qconj, qnormSq]
  ring

/-- Helper: the declination quaternion is a unit quaternion. -/
theorem qnormSq_q_dec : qnormSq q_dec = 1 := by
  simp only [q_dec, quatAxisAngle, qnormSq]
  have h := Real.sin_sq_add_cos_sq (radians declination / 2)
  nlinarith [h]

/-- Helper: the right-ascension quaternion is a unit quaternion. -/
theorem qnormSq_q_ra : qnormSq q_ra = 1 := by
  simp only [q_ra, quatAxisAngle, qnormSq]
  have h := Real.sin_sq_add_cos_sq (radians right_ascension / 2)
  nlinarith [h]

/-- Helper: the composite spin-axis quaternion is a unit quaternion. -/
theorem qnormSq_q_axis : qnormSq q_axis = 1 := by
  rw [q_axis, qnormSq_qmul, qnormSq_q_dec, qnormSq_q_ra]
  norm_num

/-- Helper: the spin axis is a unit vector (in the `np.dot(axis, axis)`
form used by the test's normalization step). -/
theorem spin_axis_dot_self : spin_axis.x * spin_axis.x + spin_axis.y * spin_axis.y +
    spin_axis.z * spin_axis.z = 1 := by
  have h := normSq_qrotate q_axis ⟨0, 0, 1⟩
  rw [qnormSq_q_axis] at h
  norm_num at h
  have h2 : spin_axis = qrotate q_axis ⟨0, 0, 1⟩ := rfl
  rw [h2]
  linear_combination h

/-- Helper: for a unit axis, the test's Euler-Rodrigues matrix rotation
coincides exactly with the quaternion conjugation rotation for the same
axis and angle. -/
theorem erMatrixRotate_eq_qrotate (ax : V3) (θ : ℝ) (v : V3)
    (h : ax.x * ax.x + ax.y * ax.y + ax.z * ax.z = 1) :
    erMatrixRotate ax θ v = qrotate (quatAxisAngle ax θ) v := by
  have hnrm : Real.sqrt (ax.x * ax.x + ax.y * ax.y + ax.z * ax.z) = 1 := by
    rw [h]
    exact Real.sqrt_one
  simp only [erMatrixRotate, hnrm, div_one, qrotate, qmul, qconj, quatAxisAngle]
  refine V3.ext ?_ ?_ ?_ <;> ring

/-- Helper: the analytical Euler-Rodrigues rotation of the test equals the
quaternion-based `rotate_point` exactly, for every time and point. -/
theorem analytical_rotation_eq_rotate_point (t : ℝ) (v : V3) :
    analytical_rotation t v = rotate_point t v := by
  rw [analytical_rotation, rotate_point]
  exact erMatrixRotate_eq_qrotate spin_axis (2 * Real.pi - spin_velocity * t) v
    spin_axis_dot_self

/-- C9: in the cross-validation scenario - declination 64 degrees, right
ascension 69 degrees, spin period 12.06*3600 seconds, point
`x = [1000, 1000, 1000]`, time `t = 20000` seconds - the quaternion-based
`rotate_point` (about the spin axis obtained by rotating the nominal z-axis
with the composite declination/right-ascension rotation) and the
closed-form Euler-Rodrigues matrix rotation for the same axis and angle
agree within `1e-5` on all three components (in the exact-real embedding
they coincide, so every nonnegative tolerance is met). -/
theorem c9_rotation_cross_validation :
    |(analytical_rotation 20000 ⟨1000, 1000, 1000⟩).x -
        (rotate_point 20000 ⟨1000, 1000, 1000⟩).x| ≤ 1e-5 ∧
    |(analytical_rotation 20000 ⟨1000, 1000, 1000⟩).y -
        (rotate_point 20000 ⟨1000, 1000, 1000⟩).y| ≤ 1e-5 ∧
    |(analytical_rotation 20000 ⟨1000, 1000, 1000⟩).z -
        (rotate_point 20000 ⟨1000, 1000, 1000⟩).z| ≤ 1e-5 := by
  have h := analytical_rotation_eq_rotate_point 20000 ⟨1000, 1000, 1000⟩
  rw [h]
  refine ⟨?_, ?_, ?_⟩ <;>
    simp only [sub_self, abs_zero] <;> norm_num

end Swarm
